import Mathlib

set_option linter.unusedVariables false

attribute [local semireducible] Rat.mul Rat.inv Rat.add Rat.sub

/-! Shallow embedding of the android-runner-data energy pipeline:
the canonical-schema data model, the two source adapters, the metrics
engine and the batch loader, with theorems checking the specification's
claims against this embedding. Numeric cells are rationals; pandas
missing values (NaN/NaT/None) are an explicit constructor. -/

/-- One pandas cell: a numeric value, a non-numeric text value, or a
missing value (NaN / None / NaT). -/
inductive Cell where
  | num (q : ℚ)
  | str (s : String)
  | null
deriving DecidableEq

/-- Embeds pd.to_numeric(cell, errors="coerce"): numeric cells keep their
value, non-numeric text and missing cells coerce to NaN (none). -/
def toNumeric : Cell → Option ℚ
  | .num q => some q
  | .str _ => none
  | .null => none

/-- Embeds pd.to_datetime(cell, unit="ms", errors="coerce") read back as
integer epoch milliseconds (fractional milliseconds floor to the stored
nanosecond grid divided by 10^6): numeric cells convert, text and missing
cells coerce to NaT (none). -/
def cellToDatetimeMs : Cell → Option ℤ
  | .num q => some ⌊q⌋
  | .str _ => none
  | .null => none

/-- A pandas DataFrame, columnar: column name to list of cells, in row order. -/
structure DataFrame where
  cols : List (String × List Cell)
deriving DecidableEq

/-- Association-list lookup by string key (first match). -/
def alookup {α : Type} : List (String × α) → String → Option α
  | [], _ => none
  | (k, v) :: rest, key => if k = key then some v else alookup rest key

/-- The cells of a named column, empty when the column is absent. -/
def listCol (df : DataFrame) (c : String) : List Cell :=
  (alookup df.cols c).getD []

/-- Whether the frame has a column of the given name (c in df.columns). -/
def hasCol (df : DataFrame) (c : String) : Bool :=
  (alookup df.cols c).isSome

/-- Number of rows (length of the first column, 0 for a column-free frame). -/
def nRows (df : DataFrame) : Nat :=
  match df.cols with
  | [] => 0
  | (_, v) :: _ => v.length

/-- Embeds df.empty. -/
def isEmptyDf (df : DataFrame) : Bool :=
  nRows df == 0

/-- Proleptic Gregorian civil date from days since the epoch
(Hinnant's algorithm, as used by civil time-stamp libraries). -/
def civilFromDays (z0 : ℤ) : ℤ × ℤ × ℤ :=
  let z := z0 + 719468
  let era := Int.fdiv z 146097
  let doe := z - era * 146097
  let yoe := Int.fdiv (doe - Int.fdiv doe 1460 + Int.fdiv doe 36524 - Int.fdiv doe 146096) 365
  let y := yoe + era * 400
  let doy := doe - (365 * yoe + Int.fdiv yoe 4 - Int.fdiv yoe 100)
  let mp := Int.fdiv (5 * doy + 2) 153
  let d := doy - Int.fdiv (153 * mp + 2) 5 + 1
  let m := mp + (if mp < 10 then 3 else -9)
  (y + (if m ≤ 2 then 1 else 0), m, d)

/-- Days since the epoch from a proleptic Gregorian civil date. -/
def daysFromCivil (y0 m d : ℤ) : ℤ :=
  let y := y0 - (if m ≤ 2 then 1 else 0)
  let era := Int.fdiv y 400
  let yoe := y - era * 400
  let mp := if 2 < m then m - 3 else m + 9
  let doy := Int.fdiv (153 * mp + 2) 5 + d - 1
  let doe := yoe * 365 + Int.fdiv yoe 4 - Int.fdiv yoe 100 + doy
  era * 146097 + doe - 719468

/-- Left-pad a natural number with zeros to the given width. -/
def padNat (w n : Nat) : String :=
  let s := toString n
  String.mk (List.replicate (w - s.length) '0') ++ s

/-- Year field of strftime %Y. -/
def yearStr (y : ℤ) : String :=
  if y < 0 then "-" ++ padNat 4 (-y).toNat else padNat 4 y.toNat

/-- Embeds pandas Timestamp.strftime("%Y-%m-%d %H:%M:%S") on a UTC
epoch-millisecond instant. -/
def formatMs (t : ℤ) : String :=
  let s := Int.fdiv t 1000
  let days := Int.fdiv s 86400
  let sod := (s - days * 86400).toNat
  let ymd := civilFromDays days
  yearStr ymd.1 ++ "-" ++ padNat 2 ymd.2.1.toNat ++ "-" ++ padNat 2 ymd.2.2.toNat ++ " " ++
    padNat 2 (sod / 3600) ++ ":" ++ padNat 2 (sod % 3600 / 60) ++ ":" ++ padNat 2 (sod % 60)

/-- Gregorian leap-year test. -/
def isLeapYear (y : Nat) : Bool :=
  (y % 4 == 0 && y % 100 != 0) || y % 400 == 0

/-- Length of a month in the given year. -/
def daysInMonth (y m : Nat) : Nat :=
  if m = 2 then (if isLeapYear y then 29 else 28)
  else if m = 4 ∨ m = 6 ∨ m = 9 ∨ m = 11 then 30
  else 31

/-- Decimal value of a digit character. -/
def dv (c : Char) : Nat := c.toNat - 48

/-- Embeds pandas date-time string parsing for the wattmeter log format
"YYYY-MM-DD HH:MM:SS", producing epoch milliseconds (UTC); any other
string is unparseable (none, i.e. NaT under errors="coerce"). -/
def parseDateTime (s : String) : Option ℤ :=
  match s.data with
  | [y1, y2, y3, y4, a1, m1, m2, a2, d1, d2, a3, h1, h2, a4, n1, n2, a5, s1, s2] =>
    if ([y1, y2, y3, y4, m1, m2, d1, d2, h1, h2, n1, n2, s1, s2].all Char.isDigit) = true ∧
        a1 = '-' ∧ a2 = '-' ∧ a3 = ' ' ∧ a4 = ':' ∧ a5 = ':' then
      let y := dv y1 * 1000 + dv y2 * 100 + dv y3 * 10 + dv y4
      let mo := dv m1 * 10 + dv m2
      let da := dv d1 * 10 + dv d2
      let h := dv h1 * 10 + dv h2
      let mi := dv n1 * 10 + dv n2
      let se := dv s1 * 10 + dv s2
      if 1 ≤ mo ∧ mo ≤ 12 ∧ 1 ≤ da ∧ da ≤ daysInMonth y mo ∧ h ≤ 23 ∧ mi ≤ 59 ∧ se ≤ 59 then
        some ((daysFromCivil (y : ℤ) (mo : ℤ) (da : ℤ) * 86400 +
          (h : ℤ) * 3600 + (mi : ℤ) * 60 + (se : ℤ)) * 1000)
      else none
    else none
  | _ => none

/-- Embeds pd.to_datetime(cell, errors="coerce") with the default unit
(strings parsed as date-times, numbers as epoch nanoseconds), read back as
epoch milliseconds by .astype(int64) // 10^6. -/
def cellParseDatetime : Cell → Option ℤ
  | .str s => parseDateTime s
  | .num q => some (Int.fdiv ⌊q⌋ 1000000)
  | .null => none

/-- Result of pandas Series.std(): NaN (single sample or empty), or the
square root of the rational sample variance. -/
inductive StdVal where
  | nan
  | sqrtOf (v : ℚ)
deriving DecidableEq

/-- The Python exception classes the pipeline can raise. -/
inductive PyErr where
  | typeError
  | valueError
  | keyError
  | fileNotFoundError
deriving DecidableEq

instance {ε α : Type} [DecidableEq ε] [DecidableEq α] : DecidableEq (Except ε α) :=
  fun x y =>
    match x, y with
    | .ok a, .ok b =>
      if h : a = b then .isTrue (by rw [h]) else .isFalse (fun hh => h (by injection hh))
    | .error a, .error b =>
      if h : a = b then .isTrue (by rw [h]) else .isFalse (fun hh => h (by injection hh))
    | .ok _, .error _ => .isFalse (fun hh => Except.noConfusion hh)
    | .error _, .ok _ => .isFalse (fun hh => Except.noConfusion hh)

/-- Embeds BaseEnergyDataSource._compute_power_average; df["PowerWatts"]
on a frame without that column raises KeyError. -/
def computePowerAverage (d : Option DataFrame) : Except PyErr (Option ℚ) :=
  match d with
  | none => .ok none
  | some df =>
    if isEmptyDf df then .ok none
    else
      match alookup df.cols "PowerWatts" with
      | none => .error .keyError
      | some col =>
        let power := col.map toNumeric
        if power.any (fun o => o.isNone) then .ok none
        else
          let vals := power.filterMap id
          .ok (some (vals.sum / (vals.length : ℚ)))

/-- Embeds BaseEnergyDataSource._compute_power_std (pandas default ddof=1:
a single sample gives NaN). -/
def computePowerStd (d : Option DataFrame) : Except PyErr (Option StdVal) :=
  match d with
  | none => .ok none
  | some df =>
    if isEmptyDf df then .ok none
    else
      match alookup df.cols "PowerWatts" with
      | none => .error .keyError
      | some col =>
        let power := col.map toNumeric
        if power.any (fun o => o.isNone) then .ok none
        else
          let vals := power.filterMap id
          if vals.length ≤ 1 then .ok (some .nan)
          else
            let m := vals.sum / (vals.length : ℚ)
            .ok (some (.sqrtOf ((vals.map (fun x => (x - m) ^ 2)).sum / ((vals.length : ℚ) - 1))))

/-- Embeds BaseEnergyDataSource._compute_power_min. -/
def computePowerMin (d : Option DataFrame) : Except PyErr (Option ℚ) :=
  match d with
  | none => .ok none
  | some df =>
    if isEmptyDf df then .ok none
    else
      match alookup df.cols "PowerWatts" with
      | none => .error .keyError
      | some col =>
        let power := col.map toNumeric
        if power.any (fun o => o.isNone) then .ok none
        else
          match power.filterMap id with
          | [] => .ok none
          | x :: xs => .ok (some (xs.foldl min x))

/-- Embeds BaseEnergyDataSource._compute_power_max. -/
def computePowerMax (d : Option DataFrame) : Except PyErr (Option ℚ) :=
  match d with
  | none => .ok none
  | some df =>
    if isEmptyDf df then .ok none
    else
      match alookup df.cols "PowerWatts" with
      | none => .error .keyError
      | some col =>
        let power := col.map toNumeric
        if power.any (fun o => o.isNone) then .ok none
        else
          match power.filterMap id with
          | [] => .ok none
          | x :: xs => .ok (some (xs.foldl max x))

/-- Embeds BaseEnergyDataSource._compute_start_time: to_datetime with
errors="coerce", drop the NaT rows, take the first remaining timestamp and
format it. -/
def computeStartTime (d : Option DataFrame) : Option String :=
  match d with
  | none => none
  | some df =>
    if isEmptyDf df then none
    else if hasCol df "Timestamp" = false then none
    else
      match (listCol df "Timestamp").filterMap cellToDatetimeMs with
      | [] => none
      | t :: _ => some (formatMs t)

/-- Embeds BaseEnergyDataSource._compute_duration_seconds: difference of the
last and first valid timestamps, in seconds. -/
def computeDuration (d : Option DataFrame) : Option ℚ :=
  match d with
  | none => none
  | some df =>
    if isEmptyDf df then none
    else if hasCol df "Timestamp" = false then none
    else
      match (listCol df "Timestamp").filterMap cellToDatetimeMs with
      | [] => none
      | t :: rest => some ((((t :: rest).getLastI - t : ℤ) : ℚ) / 1000)

/-- Embeds np.trapezoid(power, time): sum of (t2 - t1) * (p1 + p2) / 2 over
consecutive samples, in input order. -/
def trapezoid : List ℚ → List ℚ → ℚ
  | p1 :: ps, t1 :: ts =>
    match ps, ts with
    | p2 :: _, t2 :: _ => (t2 - t1) * (p1 + p2) / 2 + trapezoid ps ts
    | _, _ => 0
  | _, _ => 0

/-- The four canonical columns of BaseEnergyDataSource.STANDARD_COLUMNS. -/
def STANDARD_COLUMNS : List String := ["Timestamp", "BusVolts", "CurrentMilliAmps", "PowerWatts"]

/-- The timestamp-to-milliseconds chain of _compute_energy_wh: to_datetime
with unit="ms" and errors="coerce"; if every value is NaT fall back to
to_numeric (any NaN there gives up); otherwise .astype(int64) raises on any
remaining NaT (caught by the surrounding except, giving up), else yields
the epoch milliseconds. -/
def timeMsOfCells (tsCells : List Cell) : Option (List ℚ) :=
  let dt := tsCells.map cellToDatetimeMs
  if dt.all (fun o => o.isNone) then
    let nums := tsCells.map toNumeric
    if nums.any (fun o => o.isNone) then none
    else some (nums.filterMap id)
  else if dt.any (fun o => o.isNone) then none
  else some ((dt.filterMap id).map (fun k : ℤ => (k : ℚ)))

/-- Embeds BaseEnergyDataSource._compute_energy_wh: trapezoidal integration
of PowerWatts against timestamps in milliseconds, divided by 3,600,000. -/
def computeEnergyWh (d : Option DataFrame) : Option ℚ :=
  match d with
  | none => none
  | some df =>
    if isEmptyDf df then none
    else if STANDARD_COLUMNS.all (hasCol df) = false then none
    else
      match timeMsOfCells (listCol df "Timestamp") with
      | none => none
      | some timeMs =>
        let power := (listCol df "PowerWatts").map toNumeric
        if power.any (fun o => o.isNone) then none
        else some (trapezoid (power.filterMap id) timeMs / 3600000)

/-- A populated experiment record: the loaded dataset plus the cached
derived metrics set by load_data. -/
structure Record where
  data : Option DataFrame
  energyWh : Option ℚ
  powerAvg : Option ℚ
  powerStd : Option StdVal
  powerMin : Option ℚ
  powerMax : Option ℚ
  startTime : Option String
  durationSeconds : Option ℚ
deriving DecidableEq

/-- Embeds the caching tail of BaseEnergyDataSource.load_data, once
_load_data_impl has produced the dataset: compute each metric in source
order and store it. -/
def load_dataFrom (d : Option DataFrame) : Except PyErr Record := do
  let e := computeEnergyWh d
  let avg ← computePowerAverage d
  let sd ← computePowerStd d
  let mn ← computePowerMin d
  let mx ← computePowerMax d
  let st := computeStartTime d
  let du := computeDuration d
  .ok ⟨d, e, avg, sd, mn, mx, st, du⟩

/-- Embeds the energy_joules property: read the cached Wh value and
multiply by 3600, none when the cache is absent. -/
def energy_joules (r : Record) : Option ℚ :=
  match r.energyWh with
  | none => none
  | some wh => some (wh * 3600)

/-- A pandas column value back into a cell: NaN for missing. -/
def cellOfOpt : Option ℚ → Cell
  | some q => .num q
  | none => .null

/-- Embeds the column work of BatteryManagerEnergyDataSource._load_data_impl
on the raw frame read from the CSV: µA to mA, mV to V, power from the two
converted columns, final selection of the four canonical columns (a missing
raw column raises KeyError, in the source line order). -/
def bmConvert (df : DataFrame) : Except PyErr DataFrame :=
  match alookup df.cols "BATTERY_PROPERTY_CURRENT_NOW" with
  | none => .error .keyError
  | some rawCur =>
    match alookup df.cols "EXTRA_VOLTAGE" with
    | none => .error .keyError
    | some rawVolt =>
      match alookup df.cols "Timestamp" with
      | none => .error .keyError
      | some ts =>
        let cur := rawCur.map (fun c => (toNumeric c).map (fun q => q / 1000))
        let bus := rawVolt.map (fun c => (toNumeric c).map (fun q => q / 1000))
        let pw := List.zipWith (fun b c =>
          match b, c with
          | some bv, some cv => some (bv * (cv / 1000))
          | _, _ => none) bus cur
        .ok ⟨[("Timestamp", ts), ("BusVolts", bus.map cellOfOpt),
              ("CurrentMilliAmps", cur.map cellOfOpt), ("PowerWatts", pw.map cellOfOpt)]⟩

/-- Embeds pd.read_csv(names=STANDARD_COLUMNS, header=0): the file's
columns are renamed positionally to the canonical names. -/
def wattometerRename (df : DataFrame) : DataFrame :=
  ⟨List.zipWith (fun n p => (n, p.2)) STANDARD_COLUMNS df.cols⟩

/-- Replace the cells of one named column. -/
def setCol (df : DataFrame) (c : String) (v : List Cell) : DataFrame :=
  ⟨df.cols.map (fun p => if p.1 = c then (p.1, v) else p)⟩

/-- Embeds the timestamp conversion of
WattoMeterEnergyDataSource._load_data_impl:
pd.to_datetime(errors="coerce").astype(int64) // 10^6. Under pandas 2
(required by numpy 2's np.trapezoid), .astype(int64) on a series holding
any NaT raises ValueError instead of producing an integer sentinel. -/
def wattometerConvertTs (df : DataFrame) : Except PyErr DataFrame :=
  let parsed := (listCol df "Timestamp").map cellParseDatetime
  if parsed.any (fun o => o.isNone) then .error .valueError
  else .ok (setCol df "Timestamp" (parsed.map (fun o => Cell.num ((o.getD 0 : ℤ) : ℚ))))

/-- The file system the loaders read: directory listings and the parsed
contents of each CSV file. -/
structure FS where
  dirs : List (String × List String)
  files : List (String × DataFrame)

/-- Embeds os.path.isdir. -/
def isdir (fs : FS) (p : String) : Bool := (alookup fs.dirs p).isSome

/-- Embeds the shared directory handling of both _load_data_impl methods:
a directory picks its first *.csv entry (glob order = listing order),
raising FileNotFoundError when none exists; a file path is used directly. -/
def resolveCsvFile (fs : FS) (path : String) : Except PyErr String :=
  if isdir fs path then
    match ((alookup fs.dirs path).getD []).filter (fun f => f.endsWith ".csv") with
    | [] => .error .fileNotFoundError
    | f :: _ => .ok (path ++ "/" ++ f)
  else .ok path

/-- Embeds pd.read_csv on a path: the parsed frame, or FileNotFoundError. -/
def readCsv (fs : FS) (p : String) : Except PyErr DataFrame :=
  match alookup fs.files p with
  | some df => .ok df
  | none => .error .fileNotFoundError

/-- Embeds BatteryManagerEnergyDataSource._load_data_impl. -/
def batterymanagerLoadImpl (fs : FS) (path : String) : Except PyErr DataFrame := do
  let fp ← resolveCsvFile fs path
  let raw ← readCsv fs fp
  bmConvert raw

/-- Embeds WattoMeterEnergyDataSource._load_data_impl. -/
def wattometerLoadImpl (fs : FS) (path : String) : Except PyErr DataFrame := do
  let fp ← resolveCsvFile fs path
  let raw ← readCsv fs fp
  wattometerConvertTs (wattometerRename raw)

/-- The two registered adapter classes. -/
inductive SourceClass where
  | batteryManager
  | wattoMeter
deriving DecidableEq

/-- Embeds android_runner_data.SOURCE_CLASS_MAP. -/
def SOURCE_CLASS_MAP : List (String × SourceClass) :=
  [("batterymanager", .batteryManager), ("wattometer", .wattoMeter)]

/-- The parameters BaseEnergyDataSource.__init__ accepts (besides self). -/
def baseInitParams : List String := ["source", "data_source_path", "name"]

/-- The keyword arguments each subclass __init__ forwards to
super().__init__. -/
def subclassSuperKwargs : SourceClass → List String
  | .batteryManager =>
    ["source", "data_source_path", "name", "handle_duplicates", "duplicate_tolerance_percent"]
  | .wattoMeter => ["source", "data_source_path", "name", "handle_duplicates"]

/-- A constructed adapter object. -/
structure AdapterInstance where
  cls : SourceClass
  source : String
  data_source_path : String
  name : Option String
deriving DecidableEq

/-- Embeds running a subclass __init__: it forwards its keyword arguments
to BaseEnergyDataSource.__init__, and Python raises TypeError when any
keyword is not an accepted parameter of the callee. -/
def runSubclassInit (cls : SourceClass) (src path : String) (name : Option String) :
    Except PyErr AdapterInstance :=
  if (subclassSuperKwargs cls).all (fun k => baseInitParams.contains k) then
    .ok ⟨cls, src, path, name⟩
  else .error .typeError

/-- Embeds BaseEnergyDataSource.create_from_type with the default
SOURCE_CLASS_MAP: unknown source types raise ValueError, known ones run
the subclass constructor. -/
def create_from_type (source_type path : String) (name : Option String) :
    Except PyErr AdapterInstance :=
  match alookup SOURCE_CLASS_MAP source_type with
  | none => .error .valueError
  | some cls => runSubclassInit cls source_type path name

/-- Dispatch of the abstract _load_data_impl. -/
def loadDataImplFor : SourceClass → FS → String → Except PyErr DataFrame
  | .batteryManager => batterymanagerLoadImpl
  | .wattoMeter => wattometerLoadImpl

/-- Embeds BaseEnergyDataSource.load_data: run the subclass loader, then
compute and cache the derived metrics. -/
def load_data (fs : FS) (inst : AdapterInstance) : Except PyErr Record := do
  let df ← loadDataImplFor inst.cls fs inst.data_source_path
  load_dataFrom (some df)

/-- One experiment descriptor dict of the batch configuration. -/
structure ExperimentDesc where
  source_type : String
  data_path : String
  data_path_global : Option String
  name : Option String
deriving DecidableEq

/-- One resolved load: construct via create_from_type, then load_data. -/
def loadEntryAt (fs : FS) (st path : String) (name : Option String) : Except PyErr Record := do
  let inst ← create_from_type st path name
  load_data fs inst

/-- Embeds one try/except block of load_experiments: ValueError and
FileNotFoundError are caught (the entry is skipped), any other exception
propagates. -/
def tryLoadEntry (fs : FS) (st path : String) (name : Option String) (acc : List Record) :
    Except PyErr (List Record) :=
  match loadEntryAt fs st path name with
  | .ok r => .ok (acc ++ [r])
  | .error .valueError => .ok acc
  | .error .fileNotFoundError => .ok acc
  | .error e => .error e

/-- Embeds os.listdir, which raises FileNotFoundError on a missing root. -/
def listdir (fs : FS) (p : String) : Except PyErr (List String) :=
  match alookup fs.dirs p with
  | some es => .ok es
  | none => .error .fileNotFoundError

/-- The data_path_global loop of load_experiments: skip hidden entries and
non-directories, otherwise load from root/subdir/data_path with the same
per-entry catch. -/
def processGlobalDirs (fs : FS) (exp : ExperimentDesc) (root : String) :
    List String → List Record → Except PyErr (List Record)
  | [], acc => .ok acc
  | sub :: rest, acc =>
    if sub.startsWith "." then processGlobalDirs fs exp root rest acc
    else if isdir fs (root ++ "/" ++ sub) then
      match tryLoadEntry fs exp.source_type (root ++ "/" ++ sub ++ "/" ++ exp.data_path)
          exp.name acc with
      | .ok acc2 => processGlobalDirs fs exp root rest acc2
      | .error e => .error e
    else processGlobalDirs fs exp root rest acc

/-- One iteration of the load_experiments loop over descriptors. -/
def processEntry (fs : FS) (acc : List Record) (exp : ExperimentDesc) :
    Except PyErr (List Record) :=
  match exp.data_path_global with
  | none => tryLoadEntry fs exp.source_type exp.data_path exp.name acc
  | some root => do
    let entries ← listdir fs root
    processGlobalDirs fs exp root entries acc

/-- The loop of BaseEnergyDataSource.load_experiments, threading the
accumulated result list; an uncaught exception aborts the whole batch. -/
def loadExperimentsAux (fs : FS) : List ExperimentDesc → List Record →
    Except PyErr (List Record)
  | [], acc => .ok acc
  | e :: rest, acc =>
    match processEntry fs acc e with
    | .ok acc2 => loadExperimentsAux fs rest acc2
    | .error err => .error err

/-- Embeds BaseEnergyDataSource.load_experiments. -/
def load_experiments (fs : FS) (exps : List ExperimentDesc) : Except PyErr (List Record) :=
  loadExperimentsAux fs exps []

/-- Modelled from the spec claim wording for the start-time metric: absent
when every timestamp parse fails, otherwise the FIRST ROW's timestamp parsed
as epoch milliseconds and formatted. Stated for comparison with the source's
computeStartTime, which instead takes the first row whose parse succeeds. -/
def startTimeClaimed (d : Option DataFrame) : Option String :=
  match d with
  | none => none
  | some df =>
    let parses := (listCol df "Timestamp").map cellToDatetimeMs
    if parses.all (fun o => o.isNone) then none
    else (cellToDatetimeMs ((listCol df "Timestamp").getD 0 Cell.null)).map formatMs

/-- A loaded frame whose first timestamp cell is unparseable while the
second parses, for the start-time claims. -/
def dfC9 : DataFrame :=
  ⟨[("Timestamp", [.str "bad", .num 1704067201000]), ("BusVolts", [.num 1, .num 1]),
    ("CurrentMilliAmps", [.num 1000, .num 1000]), ("PowerWatts", [.num 1, .num 1])]⟩

/-- A canonical frame with one missing power value and valid timestamps. -/
def dfC5 : DataFrame :=
  ⟨[("Timestamp", [.num 0, .num 1000]), ("BusVolts", [.num 1, .num 1]),
    ("CurrentMilliAmps", [.num 1000, .num 1000]), ("PowerWatts", [.num 1, .null])]⟩

/-- A canonical frame with constant power 2 W over 3600 s. -/
def dfC7 : DataFrame :=
  ⟨[("Timestamp", [.num 0, .num 3600000]), ("BusVolts", [.num 1, .num 1]),
    ("CurrentMilliAmps", [.num 2000, .num 2000]), ("PowerWatts", [.num 2, .num 2])]⟩

/-- A raw battery-manager frame with one row: 500000 µA and 4000 mV. -/
def dfC8 : DataFrame :=
  ⟨[("Timestamp", [.num 123]), ("BATTERY_PROPERTY_CURRENT_NOW", [.num 500000]),
    ("EXTRA_VOLTAGE", [.num 4000])]⟩

/-- A canonical frame with a single row of numeric power 2 W. -/
def dfC10 : DataFrame :=
  ⟨[("Timestamp", [.num 0]), ("BusVolts", [.num 1]),
    ("CurrentMilliAmps", [.num 2000]), ("PowerWatts", [.num 2])]⟩

/-! Claim theorems, with a few shared helper lemmas. -/

theorem exceptBind_error {ε α β : Type} (e : ε) (f : α → Except ε β) :
    (Except.error e >>= f) = Except.error e := rfl

theorem exceptBind_ok {ε α β : Type} (a : α) (f : α → Except ε β) :
    (Except.ok a >>= f) = f a := rfl

/-- C2: for every registered source type ("batterymanager" and "wattometer")
and every path and optional name, create_from_type raises TypeError, because
each subclass __init__ forwards handle_duplicates (and, for battery-manager,
duplicate_tolerance_percent) keyword arguments that
BaseEnergyDataSource.__init__ does not accept, so no adapter is
constructible through the public factory. -/
theorem create_from_type_registered_raises_typeError (st path : String) (name : Option String)
    (h : (alookup SOURCE_CLASS_MAP st).isSome = true) :
    create_from_type st path name = .error .typeError := by
  unfold create_from_type
  cases hc : alookup SOURCE_CLASS_MAP st with
  | none => rw [hc] at h; simp at h
  | some cls => cases cls <;> rfl

/-- Witness for C2 at both registered source types. -/
theorem create_from_type_registered_raises_typeError_witness :
    create_from_type "batterymanager" "some/path" (some "n") = .error .typeError ∧
    create_from_type "wattometer" "other/path" none = .error .typeError :=
  ⟨create_from_type_registered_raises_typeError "batterymanager" "some/path" (some "n") (by decide),
   create_from_type_registered_raises_typeError "wattometer" "other/path" none (by decide)⟩

/-- C1 counterexample: a batch with a single entry of a registered source
type makes load_experiments raise TypeError (uncaught), instead of skipping
the entry and returning a list. -/
theorem load_experiments_raises_counterexample :
    load_experiments ⟨[], []⟩ [⟨"batterymanager", "data", none, none⟩] = .error .typeError := by
  decide

/-- C1 amended: load_experiments catches only ValueError and
FileNotFoundError at the per-entry boundary; for entries without a global
root, an unknown source type (ValueError) is skipped, but every entry with
a registered source type raises TypeError from the adapter constructor and
the whole batch call raises. -/
theorem load_experiments_catch_policy (fs : FS) (exps : List ExperimentDesc)
    (h : ∀ e ∈ exps, e.data_path_global = none) :
    load_experiments fs exps =
      if exps.all (fun e => (alookup SOURCE_CLASS_MAP e.source_type).isNone) then .ok []
      else .error .typeError := by
  unfold load_experiments
  suffices haux : ∀ (l : List ExperimentDesc) (acc : List Record),
      (∀ e ∈ l, e.data_path_global = none) →
      loadExperimentsAux fs l acc =
        if l.all (fun e => (alookup SOURCE_CLASS_MAP e.source_type).isNone) then .ok acc
        else .error .typeError by
    exact haux exps [] h
  intro l
  induction l with
  | nil => intro acc hl; simp [loadExperimentsAux]
  | cons e rest ih =>
    intro acc hl
    have he : e.data_path_global = none := hl e (by simp)
    have hrest : ∀ x ∈ rest, x.data_path_global = none := fun x hx => hl x (by simp [hx])
    unfold loadExperimentsAux processEntry
    rw [he]
    cases hc : alookup SOURCE_CLASS_MAP e.source_type with
    | none =>
      have hle : loadEntryAt fs e.source_type e.data_path e.name = .error .valueError := by
        unfold loadEntryAt create_from_type
        rw [hc]
        rfl
      unfold tryLoadEntry
      rw [hle]
      show loadExperimentsAux fs rest acc = _
      rw [ih acc hrest]
      simp [List.all_cons, hc]
    | some cls =>
      have hle : loadEntryAt fs e.source_type e.data_path e.name = .error .typeError := by
        unfold loadEntryAt create_from_type
        rw [hc]
        cases cls <;> rfl
      unfold tryLoadEntry
      rw [hle]
      show Except.error PyErr.typeError = _
      simp [List.all_cons, hc]

/-- Witness for C1 amended: an unknown type is skipped, while a registered
type aborts the batch. -/
theorem load_experiments_catch_policy_witness :
    load_experiments ⟨[], []⟩ [⟨"nosuch", "p", none, none⟩] = .ok [] ∧
    load_experiments ⟨[], []⟩ [⟨"nosuch", "p", none, none⟩, ⟨"wattometer", "p", none, none⟩] =
      .error .typeError := by
  constructor
  · have h := load_experiments_catch_policy ⟨[], []⟩ [⟨"nosuch", "p", none, none⟩] (by decide)
    simpa using h
  · have h := load_experiments_catch_policy ⟨[], []⟩
      [⟨"nosuch", "p", none, none⟩, ⟨"wattometer", "p", none, none⟩] (by decide)
    simpa using h

/-- C3: evaluating the wattmeter adapter's load at a file holding one
parseable and one unparseable date-time string: the parseable string has a
well-defined epoch-millisecond value, the unparseable one coerces to NaT,
and the load raises ValueError (from .astype(int64) on NaT) instead of
storing a null timestamp. -/
theorem wattometer_unparseable_timestamp_raises :
    cellParseDatetime (.str "2024-01-01 00:00:01") = some 1704067201000 ∧
    cellParseDatetime (.str "not-a-date") = none ∧
    wattometerLoadImpl
      ⟨[], [("run.csv", ⟨[("time", [.str "2024-01-01 00:00:01", .str "not-a-date"]),
        ("volt", [.num 5, .num 5]), ("cur", [.num 1, .num 1]), ("pow", [.num 5, .num 5])]⟩)]⟩
      "run.csv" = .error .valueError ∧
    wattometerLoadImpl
      ⟨[], [("run.csv", ⟨[("time", [.str "2024-01-01 00:00:01"]), ("volt", [.num 5]),
        ("cur", [.num 1]), ("pow", [.num 5])]⟩)]⟩ "run.csv" =
      .ok ⟨[("Timestamp", [.num 1704067201000]), ("BusVolts", [.num 5]),
        ("CurrentMilliAmps", [.num 1]), ("PowerWatts", [.num 5])]⟩ := by
  refine ⟨by decide, by decide, by decide, by decide⟩

/-- C4 counterexample: a non-empty loaded dataset missing the PowerWatts
column makes every power aggregate raise KeyError instead of returning the
absent value. -/
theorem power_metrics_missing_column_counterexample :
    computePowerAverage (some ⟨[("Timestamp", [.num 0])]⟩) = .error .keyError ∧
    computePowerStd (some ⟨[("Timestamp", [.num 0])]⟩) = .error .keyError ∧
    computePowerMin (some ⟨[("Timestamp", [.num 0])]⟩) = .error .keyError ∧
    computePowerMax (some ⟨[("Timestamp", [.num 0])]⟩) = .error .keyError := by
  refine ⟨by decide, by decide, by decide, by decide⟩

/-- C4 amended: with missing (None) or empty data every metric returns the
absent value; on a non-empty dataset, energy returns absent when any
canonical column is missing and start time and duration return absent when
Timestamp is missing, but the four power aggregates raise KeyError when
PowerWatts is missing. -/
theorem metrics_on_empty_or_missing_columns :
    (∀ df : DataFrame, isEmptyDf df = true →
      computePowerAverage (some df) = .ok none ∧ computePowerStd (some df) = .ok none ∧
      computePowerMin (some df) = .ok none ∧ computePowerMax (some df) = .ok none ∧
      computeEnergyWh (some df) = none ∧ computeStartTime (some df) = none ∧
      computeDuration (some df) = none) ∧
    (computePowerAverage none = .ok none ∧ computePowerStd none = .ok none ∧
      computePowerMin none = .ok none ∧ computePowerMax none = .ok none ∧
      computeEnergyWh none = none ∧ computeStartTime none = none ∧
      computeDuration none = none) ∧
    (∀ df : DataFrame, isEmptyDf df = false → alookup df.cols "PowerWatts" = none →
      computePowerAverage (some df) = .error .keyError ∧
      computePowerStd (some df) = .error .keyError ∧
      computePowerMin (some df) = .error .keyError ∧
      computePowerMax (some df) = .error .keyError) ∧
    (∀ df : DataFrame, STANDARD_COLUMNS.all (hasCol df) = false →
      computeEnergyWh (some df) = none) ∧
    (∀ df : DataFrame, hasCol df "Timestamp" = false →
      computeStartTime (some df) = none ∧ computeDuration (some df) = none) := by
  refine ⟨?_, ?_, ?_, ?_, ?_⟩
  · intro df h
    exact ⟨by simp [computePowerAverage, h], by simp [computePowerStd, h],
      by simp [computePowerMin, h], by simp [computePowerMax, h],
      by simp [computeEnergyWh, h], by simp [computeStartTime, h],
      by simp [computeDuration, h]⟩
  · exact ⟨rfl, rfl, rfl, rfl, rfl, rfl, rfl⟩
  · intro df h hcol
    exact ⟨by simp [computePowerAverage, h, hcol], by simp [computePowerStd, h, hcol],
      by simp [computePowerMin, h, hcol], by simp [computePowerMax, h, hcol]⟩
  · intro df h
    cases he : isEmptyDf df
    · simp [computeEnergyWh, he, h]
    · simp [computeEnergyWh, he]
  · intro df h
    cases he : isEmptyDf df
    · exact ⟨by simp [computeStartTime, he, h], by simp [computeDuration, he, h]⟩
    · exact ⟨by simp [computeStartTime, he], by simp [computeDuration, he]⟩

/-- Witness for C4 amended, at an empty frame and at a non-empty frame
without PowerWatts. -/
theorem metrics_on_empty_or_missing_columns_witness :
    computePowerAverage (some ⟨[]⟩) = .ok none ∧
    computeStartTime (some ⟨[("PowerWatts", [Cell.num 1])]⟩) = none ∧
    computePowerStd (some ⟨[("BusVolts", [Cell.num 0])]⟩) = .error .keyError := by
  refine ⟨(metrics_on_empty_or_missing_columns.1 ⟨[]⟩ (by decide)).1,
    ((metrics_on_empty_or_missing_columns.2.2.2.2 ⟨[("PowerWatts", [Cell.num 1])]⟩ (by decide)).1),
    ((metrics_on_empty_or_missing_columns.2.2.1 ⟨[("BusVolts", [Cell.num 0])]⟩ (by decide) (by decide)).2.1)⟩

/-- C5: on a non-empty dataset in which at least one PowerWatts value is
non-numeric or missing, power average, standard deviation, minimum, maximum
and energy are all absent; and when the Timestamp column is present with at
least one valid value, start time and duration are still computed. -/
theorem bad_power_makes_aggregates_absent (df : DataFrame) (col : List Cell)
    (hne : isEmptyDf df = false)
    (hcol : alookup df.cols "PowerWatts" = some col)
    (hbad : ∃ c ∈ col, toNumeric c = none) :
    computePowerAverage (some df) = .ok none ∧
    computePowerStd (some df) = .ok none ∧
    computePowerMin (some df) = .ok none ∧
    computePowerMax (some df) = .ok none ∧
    computeEnergyWh (some df) = none ∧
    ((hasCol df "Timestamp" = true ∧
        (listCol df "Timestamp").filterMap cellToDatetimeMs ≠ []) →
      (computeStartTime (some df)).isSome = true ∧
      (computeDuration (some df)).isSome = true) := by
  have hany : (col.map toNumeric).any (fun o => o.isNone) = true := by
    obtain ⟨c, hc, hcn⟩ := hbad
    simp only [List.any_eq_true]
    exact ⟨toNumeric c, List.mem_map_of_mem _ hc, by simp [hcn]⟩
  have hlc : listCol df "PowerWatts" = col := by simp [listCol, hcol]
  refine ⟨by simp [computePowerAverage, hne, hcol, hany],
    by simp [computePowerStd, hne, hcol, hany],
    by simp [computePowerMin, hne, hcol, hany],
    by simp [computePowerMax, hne, hcol, hany], ?_, ?_⟩
  · cases hall : STANDARD_COLUMNS.all (hasCol df) with
    | false => simp [computeEnergyWh, hne, hall]
    | true =>
      cases ht : timeMsOfCells (listCol df "Timestamp") with
      | none => simp [computeEnergyWh, hne, hall, ht]
      | some timeMs => simp [computeEnergyWh, hne, hall, ht, hlc, hany]
  · rintro ⟨hts, hvalid⟩
    cases hl : (listCol df "Timestamp").filterMap cellToDatetimeMs with
    | nil => exact absurd hl hvalid
    | cons t rest =>
      exact ⟨by simp [computeStartTime, hne, hts, hl],
        by simp [computeDuration, hne, hts, hl]⟩

/-- Witness for C5 at a two-row frame with one missing power value and
valid epoch-millisecond timestamps. -/
theorem bad_power_makes_aggregates_absent_witness :
    computePowerAverage (some dfC5) = .ok none ∧
    computePowerStd (some dfC5) = .ok none ∧
    computePowerMin (some dfC5) = .ok none ∧
    computePowerMax (some dfC5) = .ok none ∧
    computeEnergyWh (some dfC5) = none ∧
    ((hasCol dfC5 "Timestamp" = true ∧
        (listCol dfC5 "Timestamp").filterMap cellToDatetimeMs ≠ []) →
      (computeStartTime (some dfC5)).isSome = true ∧
      (computeDuration (some dfC5)).isSome = true) :=
  bad_power_makes_aggregates_absent dfC5 [Cell.num 1, Cell.null]
    (by decide) (by decide) (by decide)

/-- C6: energy in Joules is derived from the cached Wh value: when the
cached Wh is present the Joules value is exactly Wh times 3600, when it is
absent the Joules value is absent, and load_data caches exactly the Wh
value computed from the loaded dataset. -/
theorem energy_joules_from_cached_wh :
    (∀ (r : Record) (wh : ℚ), r.energyWh = some wh → energy_joules r = some (wh * 3600)) ∧
    (∀ r : Record, r.energyWh = none → energy_joules r = none) ∧
    (∀ (d : Option DataFrame) (r : Record), load_dataFrom d = .ok r →
      r.energyWh = computeEnergyWh d) := by
  refine ⟨?_, ?_, ?_⟩
  · intro r wh h; simp [energy_joules, h]
  · intro r h; simp [energy_joules, h]
  · intro d r h
    unfold load_dataFrom at h
    cases havg : computePowerAverage d with
    | error e => rw [havg] at h; simp [exceptBind_error] at h
    | ok avg =>
      rw [havg] at h
      cases hsd : computePowerStd d with
      | error e => rw [hsd] at h; simp [exceptBind_ok, exceptBind_error] at h
      | ok sd =>
        rw [hsd] at h
        cases hmn : computePowerMin d with
        | error e => rw [hmn] at h; simp [exceptBind_ok, exceptBind_error] at h
        | ok mn =>
          rw [hmn] at h
          cases hmx : computePowerMax d with
          | error e => rw [hmx] at h; simp [exceptBind_ok, exceptBind_error] at h
          | ok mx =>
            rw [hmx] at h
            simp only [exceptBind_ok] at h
            cases h
            rfl

/-- Witness for C6: a record with cached Wh 2 yields 7200 J, a record with
no cached Wh yields no Joules value, and a loaded record caches the
computed Wh. -/
theorem energy_joules_from_cached_wh_witness :
    energy_joules ⟨none, some 2, none, none, none, none, none, none⟩ = some 7200 ∧
    energy_joules ⟨none, none, none, none, none, none, none, none⟩ = none ∧
    (⟨none, none, none, none, none, none, none, none⟩ : Record).energyWh =
      computeEnergyWh none := by
  refine ⟨?_, energy_joules_from_cached_wh.2.1 _ rfl,
    energy_joules_from_cached_wh.2.2 none _ rfl⟩
  rw [energy_joules_from_cached_wh.1 ⟨none, some 2, none, none, none, none, none, none⟩ 2 rfl]
  norm_num

/-- C9 counterexample: on a frame whose first timestamp cell is
unparseable and whose second parses, the code returns the formatted second
timestamp, while the claim's "first row's timestamp" reading yields the
absent value; the two disagree. -/
theorem compute_start_time_counterexample :
    computeStartTime (some dfC9) = some "2024-01-01 00:00:01" ∧
    startTimeClaimed (some dfC9) = none ∧
    computeStartTime (some dfC9) ≠ startTimeClaimed (some dfC9) := by
  refine ⟨by decide, by decide, by decide⟩

/-- C9 amended: the start-time metric is absent when data is empty or no
timestamp parses, and otherwise equals the first successfully parsed
timestamp (not necessarily the first row's), formatted as
YYYY-MM-DD HH:MM:SS in UTC. -/
theorem compute_start_time_first_valid (df : DataFrame) :
    computeStartTime (some df) =
      if isEmptyDf df = true then none
      else ((listCol df "Timestamp").filterMap cellToDatetimeMs).head?.map formatMs := by
  unfold computeStartTime
  cases he : isEmptyDf df with
  | true => simp [he]
  | false =>
    cases hc : hasCol df "Timestamp" with
    | false =>
      have hnil : listCol df "Timestamp" = [] := by
        unfold hasCol at hc
        unfold listCol
        cases halo : alookup df.cols "Timestamp" with
        | none => rfl
        | some v => rw [halo] at hc; simp at hc
      simp [he, hc, hnil]
    | true =>
      cases hl : (listCol df "Timestamp").filterMap cellToDatetimeMs with
      | nil => simp [he, hc, hl]
      | cons t rest => simp [he, hc, hl]

/-- C10: a dataset with exactly one row whose PowerWatts value is numeric
loads with power standard deviation NaN (pandas sample std with ddof=1 of a
single value) rather than the absent value or zero, while power average,
minimum and maximum all equal that single value. -/
theorem single_row_power_std_nan (p : ℚ) (df : DataFrame)
    (hp : alookup df.cols "PowerWatts" = some [Cell.num p])
    (h1 : nRows df = 1) :
    ∃ r : Record, load_dataFrom (some df) = .ok r ∧
      r.powerStd = some .nan ∧ r.powerAvg = some p ∧
      r.powerMin = some p ∧ r.powerMax = some p := by
  have he : isEmptyDf df = false := by simp [isEmptyDf, h1]
  have havg : computePowerAverage (some df) = .ok (some p) := by
    simp [computePowerAverage, he, hp, toNumeric]
  have hsd : computePowerStd (some df) = .ok (some .nan) := by
    simp [computePowerStd, he, hp, toNumeric]
  have hmn : computePowerMin (some df) = .ok (some p) := by
    simp [computePowerMin, he, hp, toNumeric]
  have hmx : computePowerMax (some df) = .ok (some p) := by
    simp [computePowerMax, he, hp, toNumeric]
  refine ⟨⟨some df, computeEnergyWh (some df), some p, some .nan, some p, some p,
    computeStartTime (some df), computeDuration (some df)⟩, ?_, rfl, rfl, rfl, rfl⟩
  unfold load_dataFrom
  rw [havg, hsd, hmn, hmx]
  rfl

/-- Witness for C10 at a concrete single-row canonical frame with power
2 W. -/
theorem single_row_power_std_nan_witness :
    ∃ r : Record, load_dataFrom (some dfC10) = .ok r ∧
      r.powerStd = some .nan ∧ r.powerAvg = some 2 ∧
      r.powerMin = some 2 ∧ r.powerMax = some 2 :=
  single_row_power_std_nan 2 dfC10 (by decide) (by decide)

theorem timeMsOfCells_int (ks : List ℤ) (h : ks ≠ []) :
    timeMsOfCells (ks.map (fun k : ℤ => Cell.num (k : ℚ))) = some (ks.map (fun k : ℤ => (k : ℚ))) := by
  unfold timeMsOfCells
  have hdt : (ks.map (fun k : ℤ => Cell.num (k : ℚ))).map cellToDatetimeMs =
      ks.map (fun k => some k) := by
    simp [List.map_map, Function.comp, cellToDatetimeMs, Int.floor_intCast]
  rw [hdt]
  have hall : (ks.map (fun k => some k)).all (fun o => o.isNone) = false := by
    cases ks with
    | nil => exact absurd rfl h
    | cons a as => simp
  simp [hall, List.any_map, List.filterMap_map, Function.comp, List.filterMap_some]

theorem trapezoid_const (p : ℚ) : ∀ (ps ts : List ℚ), ps.length = ts.length →
    (∀ x ∈ ps, x = p) → trapezoid ps ts = p * (ts.getLastI - ts.headI) := by
  intro ps
  induction ps with
  | nil =>
    intro ts hlen hall
    cases ts with
    | nil =>
      rw [show trapezoid [] [] = 0 from rfl]
      rw [show List.getLastI ([] : List ℚ) = default from rfl]
      rw [show List.headI ([] : List ℚ) = default from rfl]
      rw [sub_self, mul_zero]
    | cons t ts2 => simp at hlen
  | cons p1 ps1 ih =>
    intro ts hlen hall
    cases ts with
    | nil => simp at hlen
    | cons t1 ts1 =>
      cases ps1 with
      | nil =>
        cases ts1 with
        | nil =>
          rw [show trapezoid [p1] [t1] = 0 from rfl]
          rw [show List.getLastI [t1] = t1 from rfl, show List.headI [t1] = t1 from rfl]
          rw [sub_self, mul_zero]
        | cons t2 ts2 => simp at hlen
      | cons p2 ps2 =>
        cases ts1 with
        | nil => simp at hlen
        | cons t2 ts2 =>
          have hp1 : p1 = p := hall p1 (by simp)
          have hall1 : ∀ x ∈ p2 :: ps2, x = p := fun x hx => hall x (List.mem_cons_of_mem _ hx)
          have hp2 : p2 = p := hall1 p2 (by simp)
          have hlen1 : (p2 :: ps2).length = (t2 :: ts2).length := by simpa using hlen
          have iht := ih (t2 :: ts2) hlen1 hall1
          rw [show trapezoid (p1 :: p2 :: ps2) (t1 :: t2 :: ts2) =
            (t2 - t1) * (p1 + p2) / 2 + trapezoid (p2 :: ps2) (t2 :: ts2) from rfl]
          rw [iht, hp1, hp2]
          have hlast : (t1 :: t2 :: ts2).getLastI = (t2 :: ts2).getLastI := by
            rw [List.getLastI_eq_getLast?, List.getLastI_eq_getLast?, List.getLast?_cons_cons]
          rw [hlast, show (t1 :: t2 :: ts2).headI = t1 from rfl,
            show (t2 :: ts2).headI = t2 from rfl]
          ring

theorem computeEnergyWh_eq_trapezoid (df : DataFrame) (ks : List ℤ)
    (hne : isEmptyDf df = false)
    (hcols : STANDARD_COLUMNS.all (hasCol df) = true)
    (hks : ks ≠ [])
    (hts : listCol df "Timestamp" = ks.map (fun k : ℤ => Cell.num (k : ℚ)))
    (hpw : ∀ c ∈ listCol df "PowerWatts", (toNumeric c).isSome = true) :
    computeEnergyWh (some df) =
      some (trapezoid ((listCol df "PowerWatts").filterMap toNumeric)
        (ks.map (fun k : ℤ => (k : ℚ))) / 3600000) := by
  have hany : ((listCol df "PowerWatts").map toNumeric).any (fun o => o.isNone) = false := by
    rw [List.any_eq_false]
    intro o ho
    rw [List.mem_map] at ho
    obtain ⟨c, hc, rfl⟩ := ho
    obtain ⟨v, hv⟩ := Option.isSome_iff_exists.mp (hpw c hc)
    simp [hv]
  simp only [computeEnergyWh]
  rw [hts, timeMsOfCells_int ks hks]
  simp [hne, hcols, hany, List.filterMap_map]

/-- C7: on a non-empty dataset with the four canonical columns, integer
epoch-millisecond timestamps and all-numeric power, the computed energy in
Wh equals the trapezoidal integral of the power values against the
timestamps in milliseconds, in input row order, divided by 3,600,000; and
for constant power p over a span of 1000 * D milliseconds (D seconds) it
equals p * D / 3600 exactly. -/
theorem energy_wh_trapezoidal :
    (∀ (df : DataFrame) (ks : List ℤ),
      isEmptyDf df = false →
      STANDARD_COLUMNS.all (hasCol df) = true →
      ks ≠ [] →
      listCol df "Timestamp" = ks.map (fun k : ℤ => Cell.num (k : ℚ)) →
      (∀ c ∈ listCol df "PowerWatts", (toNumeric c).isSome = true) →
      computeEnergyWh (some df) =
        some (trapezoid ((listCol df "PowerWatts").filterMap toNumeric)
          (ks.map (fun k : ℤ => (k : ℚ))) / 3600000)) ∧
    (∀ (df : DataFrame) (ks : List ℤ) (p D : ℚ),
      isEmptyDf df = false →
      STANDARD_COLUMNS.all (hasCol df) = true →
      ks ≠ [] →
      listCol df "Timestamp" = ks.map (fun k : ℤ => Cell.num (k : ℚ)) →
      (∀ c ∈ listCol df "PowerWatts", (toNumeric c).isSome = true) →
      (∀ x ∈ (listCol df "PowerWatts").filterMap toNumeric, x = p) →
      ((listCol df "PowerWatts").filterMap toNumeric).length = ks.length →
      (ks.map (fun k : ℤ => (k : ℚ))).getLastI - (ks.map (fun k : ℤ => (k : ℚ))).headI = 1000 * D →
      computeEnergyWh (some df) = some (p * D / 3600)) := by
  constructor
  · intro df ks hne hcols hks hts hpw
    exact computeEnergyWh_eq_trapezoid df ks hne hcols hks hts hpw
  · intro df ks p D hne hcols hks hts hpw hp hlen hspan
    rw [computeEnergyWh_eq_trapezoid df ks hne hcols hks hts hpw]
    rw [trapezoid_const p ((listCol df "PowerWatts").filterMap toNumeric)
      (ks.map (fun k : ℤ => (k : ℚ))) (by rw [List.length_map]; exact hlen) hp]
    rw [hspan]
    congr 1
    ring

/-- Witness for C7 at a two-sample frame with constant power 2 W over
3600 s: the energy is 2 * 3600 / 3600 = 2 Wh. -/
theorem energy_wh_trapezoidal_witness :
    computeEnergyWh (some dfC7) = some (2 * 3600 / 3600) :=
  energy_wh_trapezoidal.2 dfC7 [0, 3600000] 2 3600 (by decide) (by decide) (by decide)
    (by decide) (by decide) (by decide) (by decide) (by decide)

theorem getq_zipWith {α β γ : Type} (f : α → β → γ) :
    ∀ (l1 : List α) (l2 : List β) (i : Nat) (a : α) (b : β),
      l1[i]? = some a → l2[i]? = some b → (List.zipWith f l1 l2)[i]? = some (f a b) := by
  intro l1
  induction l1 with
  | nil => intro l2 i a b h1 h2; simp at h1
  | cons x xs ih =>
    intro l2 i a b h1 h2
    cases l2 with
    | nil => simp at h2
    | cons y ys =>
      cases i with
      | zero =>
        simp only [List.getElem?_cons_zero, Option.some.injEq] at h1 h2
        simp [List.zipWith_cons_cons, h1, h2]
      | succ n =>
        simp only [List.getElem?_cons_succ] at h1 h2
        simpa [List.zipWith_cons_cons] using ih ys n a b h1 h2

/-- C8: for every raw battery-manager row with numeric raw current c (µA)
and raw voltage v (mV), the loaded canonical row has
CurrentMilliAmps = c / 1000, BusVolts = v / 1000 and
PowerWatts = (v / 1000) * ((c / 1000) / 1000), and the raw Timestamp column
is retained unmodified. -/
theorem bm_row_conversion (df : DataFrame) (rawCur rawVolt ts : List Cell) (i : Nat) (c v : ℚ)
    (hcur : alookup df.cols "BATTERY_PROPERTY_CURRENT_NOW" = some rawCur)
    (hvolt : alookup df.cols "EXTRA_VOLTAGE" = some rawVolt)
    (hts : alookup df.cols "Timestamp" = some ts)
    (hci : rawCur[i]? = some (Cell.num c))
    (hvi : rawVolt[i]? = some (Cell.num v)) :
    ∃ out : DataFrame, bmConvert df = .ok out ∧
      listCol out "Timestamp" = ts ∧
      (listCol out "CurrentMilliAmps")[i]? = some (Cell.num (c / 1000)) ∧
      (listCol out "BusVolts")[i]? = some (Cell.num (v / 1000)) ∧
      (listCol out "PowerWatts")[i]? = some (Cell.num ((v / 1000) * ((c / 1000) / 1000))) := by
  have hstep : bmConvert df = .ok
      ⟨[("Timestamp", ts),
        ("BusVolts", (rawVolt.map (fun cc => (toNumeric cc).map (fun q => q / 1000))).map cellOfOpt),
        ("CurrentMilliAmps",
          (rawCur.map (fun cc => (toNumeric cc).map (fun q => q / 1000))).map cellOfOpt),
        ("PowerWatts",
          (List.zipWith (fun b cc =>
            match b, cc with
            | some bv, some cv => some (bv * (cv / 1000))
            | _, _ => none)
            (rawVolt.map (fun cc => (toNumeric cc).map (fun q => q / 1000)))
            (rawCur.map (fun cc => (toNumeric cc).map (fun q => q / 1000)))).map cellOfOpt)]⟩ := by
    unfold bmConvert
    rw [hcur, hvolt, hts]
  refine ⟨_, hstep, ?_, ?_, ?_, ?_⟩
  · rfl
  · show ((rawCur.map (fun cc => (toNumeric cc).map (fun q => q / 1000))).map cellOfOpt)[i]? = _
    simp [List.getElem?_map, hci, toNumeric, cellOfOpt]
  · show ((rawVolt.map (fun cc => (toNumeric cc).map (fun q => q / 1000))).map cellOfOpt)[i]? = _
    simp [List.getElem?_map, hvi, toNumeric, cellOfOpt]
  · show ((List.zipWith (fun b cc =>
        match b, cc with
        | some bv, some cv => some (bv * (cv / 1000))
        | _, _ => none)
        (rawVolt.map (fun cc => (toNumeric cc).map (fun q => q / 1000)))
        (rawCur.map (fun cc => (toNumeric cc).map (fun q => q / 1000)))).map cellOfOpt)[i]? = _
    have hb : (rawVolt.map (fun cc => (toNumeric cc).map (fun q => q / 1000)))[i]? =
        some (some (v / 1000)) := by
      simp [List.getElem?_map, hvi, toNumeric]
    have hc2 : (rawCur.map (fun cc => (toNumeric cc).map (fun q => q / 1000)))[i]? =
        some (some (c / 1000)) := by
      simp [List.getElem?_map, hci, toNumeric]
    rw [List.getElem?_map, getq_zipWith _ _ _ _ _ _ hb hc2]
    rfl

/-- Witness for C8 at the spec's test row: 500000 µA and 4000 mV yield
500 mA, 4 V and 2 W, with the timestamp retained. -/
theorem bm_row_conversion_witness :
    ∃ out : DataFrame, bmConvert dfC8 = .ok out ∧
      listCol out "Timestamp" = [Cell.num 123] ∧
      (listCol out "CurrentMilliAmps")[0]? = some (Cell.num 500) ∧
      (listCol out "BusVolts")[0]? = some (Cell.num 4) ∧
      (listCol out "PowerWatts")[0]? = some (Cell.num 2) := by
  have h := bm_row_conversion dfC8 [Cell.num 500000] [Cell.num 4000] [Cell.num 123] 0
    500000 4000 rfl rfl rfl (by decide) (by decide)
  obtain ⟨out, h1, h2, h3, h4, h5⟩ := h
  refine ⟨out, h1, h2, ?_, ?_, ?_⟩
  · rw [h3]; norm_num
  · rw [h4]; norm_num
  · rw [h5]; norm_num
